import Mathlib

/-!
Shallow embedding of the classifier-services subsystem of the Oppia
repository (`core/domain/classifier_services.py`), together with theorems
settling the frozen claims about it.

The service functions are translated directly from the source file.  The
collaborators that the source imports but that are not part of the given
sources (the datastore models in `core/storage/classifier`, the domain
value objects in `core/domain/classifier_domain`, and the configuration
constants in `feconf`) are modelled from the specification's description of
them; each such definition carries a doc comment saying so.  Stateful code
is embedded by explicit store passing: a function that can raise returns an
`Except String` result, and a function that can also write to a store
returns the store it leaves behind (unchanged on the error paths that occur
before any persistence call, exactly as in the source, which persists only
through explicit `put` / `put_multi` / `create` calls).
-/

namespace Oppia

/-- Training-job status values (`feconf.TRAINING_JOB_STATUS_*`). -/
inductive TrainingJobStatus where
  | NEW
  | PENDING
  | COMPLETE
  | FAILED
deriving DecidableEq, Repr, Inhabited

/-- String rendering of a status, used in error messages. -/
def TrainingJobStatus.toString : TrainingJobStatus → String
  | .NEW => "NEW"
  | .PENDING => "PENDING"
  | .COMPLETE => "COMPLETE"
  | .FAILED => "FAILED"

instance : ToString TrainingJobStatus := ⟨TrainingJobStatus.toString⟩

/-- Modelled from the spec (`feconf.TRAINING_JOB_STATUS_NEW` is not in src/). -/
def TRAINING_JOB_STATUS_NEW : TrainingJobStatus := .NEW

/-- Modelled from the spec (`feconf.TRAINING_JOB_STATUS_PENDING` is not in src/). -/
def TRAINING_JOB_STATUS_PENDING : TrainingJobStatus := .PENDING

/-- Modelled from the spec (`feconf.TRAINING_JOB_STATUS_COMPLETE` is not in src/). -/
def TRAINING_JOB_STATUS_COMPLETE : TrainingJobStatus := .COMPLETE

/-- Modelled from the spec (`feconf.TRAINING_JOB_STATUS_FAILED` is not in src/). -/
def TRAINING_JOB_STATUS_FAILED : TrainingJobStatus := .FAILED

/-- Modelled from the spec: the configured allowed status-transition table
(`feconf.ALLOWED_TRAINING_JOB_STATUS_CHANGES` is not in src/).  The spec
gives the expected edges NEW→PENDING, PENDING→COMPLETE, PENDING→FAILED and
FAILED→PENDING-for-retry, and no transition out of COMPLETE. -/
def ALLOWED_TRAINING_JOB_STATUS_CHANGES :
    TrainingJobStatus → List TrainingJobStatus
  | .NEW => [.PENDING]
  | .PENDING => [.COMPLETE, .FAILED]
  | .COMPLETE => []
  | .FAILED => [.PENDING]

/-- Modelled from the spec: the configured job lease TTL
(`feconf.CLASSIFIER_JOB_TTL_MINS` is not in src/; the concrete value is
immaterial to the claims). -/
def CLASSIFIER_JOB_TTL_MINS : Nat := 5

/-- Modelled from the spec: the reserved default label returned by a
classifier when no answer group matches
(`feconf.DEFAULT_CLASSIFIER_LABEL` is not in src/). -/
def DEFAULT_CLASSIFIER_LABEL : String := "_default"

/-- Modelled from the spec: the rule type marking a classifier-backed rule
spec (`exp_domain.RULE_TYPE_CLASSIFIER` is not in src/). -/
def RULE_TYPE_CLASSIFIER : String := "FuzzyMatches"

/-- Per-interaction classifier configuration: one entry of
`feconf.INTERACTION_CLASSIFIER_MAPPING`. -/
structure ClassifierAlgorithmConfig where
  algorithm_id : String
  current_data_schema_version : Nat
deriving DecidableEq, Repr

/-- The configuration table `feconf.INTERACTION_CLASSIFIER_MAPPING`,
threaded through explicitly (it is not in src/); `none` plays the role of a
missing dictionary key. -/
abbrev InteractionClassifierMapping := String → Option ClassifierAlgorithmConfig

/-! ## Exploration content (states, interactions, answer groups)

These value objects come from `exp_domain`, which is not in src/; they are
modelled from the spec with exactly the attributes the service code reads. -/

/-- An outcome, kept opaque: the service code only ever passes it through
`to_dict`, never inspects it. -/
structure Outcome where
  dest : String
deriving DecidableEq, Repr

/-- The source calls `outcome.to_dict()`; on the opaque payload this is the
identity. -/
def Outcome.to_dict (o : Outcome) : Outcome := o

/-- A rule spec: its type string and the classifier training data stored
under `inputs['training_data']`. -/
structure RuleSpec where
  rule_type : String
  training_data : List String
deriving DecidableEq, Repr

/-- An answer group: its rule specs and its outcome. -/
structure AnswerGroup where
  rule_specs : List RuleSpec
  outcome : Outcome
deriving DecidableEq, Repr

/-- Modelled from the spec: `AnswerGroup.get_classifier_rule_index` (from
`exp_domain`, not in src/) returns the index of the first rule spec whose
type is the classifier rule type, or `None` when the group has none. -/
def AnswerGroup.get_classifier_rule_index (g : AnswerGroup) : Option Nat :=
  g.rule_specs.findIdx? (fun rs => rs.rule_type == RULE_TYPE_CLASSIFIER)

/-- Training data attached to a state, as stored on a training job:
an ordered sequence of (document, labels) examples (spec §3). -/
abbrev TrainingData := List (String × List String)

/-- An interaction as read by the classification engine. -/
structure Interaction where
  id : String
  answer_groups : List AnswerGroup
  default_outcome : Option Outcome
  confirmed_unclassified_answers : List String
deriving DecidableEq, Repr

/-- A state of an exploration. -/
structure State where
  interaction : Interaction
  training_data : TrainingData
deriving DecidableEq, Repr

/-- Modelled from the spec: `State.get_training_data` (from `exp_domain`,
not in src/) returns the state's training data. -/
def State.get_training_data (s : State) : TrainingData := s.training_data

/-- An exploration: id, version, and named states. -/
structure Exploration where
  id : String
  version : Nat
  states : List (String × State)
deriving DecidableEq, Repr

/-- The capability record produced by
`interaction_registry.Registry.get_interaction_by_id` (not in src/):
an answer normalizer and a trainability flag, per spec §6. -/
structure InteractionInstance where
  normalize_answer : String → String
  is_string_classifier_trainable : Bool

/-- The pluggable string classifier (spec §6): an opaque collaborator that
is trained on examples and then predicts a label for an input.  The
source's `sc.train(examples); sc.predict([answer])[0]` sequence is embedded
as a single function from the examples and the answer to the predicted
label. -/
structure StringClassifier where
  predict_label : List (String × List String) → String → String

/-- The result dict returned by `classify` /
`classify_string_classifier_rule`.  The certainty key is absent (`none`)
on the dict built by `classify_string_classifier_rule`, and the rule spec
index may be Python `None`. -/
structure ClassificationResult where
  outcome : Outcome
  answer_group_index : Int
  classification_certainty : Option Rat
  rule_spec_index : Option Nat
deriving DecidableEq, Repr

/-- Python list indexing with a (possibly negative) int index: negative
indexes count from the end; out of range is an error (`none`). -/
def pylist_get (l : List α) (i : Int) : Option α :=
  if i < 0 then
    let j := (l.length : Int) + i
    if j < 0 then none else l.get? j.toNat
  else
    l.get? i.toNat

/-- The numeric value of a decimal digit character, or `none`. -/
def digit_value (c : Char) : Option Nat :=
  if c = '0' then some 0 else if c = '1' then some 1
  else if c = '2' then some 2 else if c = '3' then some 3
  else if c = '4' then some 4 else if c = '5' then some 5
  else if c = '6' then some 6 else if c = '7' then some 7
  else if c = '8' then some 8 else if c = '9' then some 9 else none

/-- The value of a nonempty string of decimal digits, or `none`. -/
def digits_to_nat : List Char → Option Nat
  | [] => none
  | cs => cs.foldl
      (fun acc c => acc.bind (fun a => (digit_value c).map (fun d => a * 10 + d)))
      (some 0)

/-- Model of Python `int(s)` on the strings that arise here: an optional
minus sign followed by decimal digits; anything else raises (`none`). -/
def py_int_of_string (s : String) : Option Int :=
  match s.data with
  | '-' :: rest => (digits_to_nat rest).map (fun n => -(n : Int))
  | cs => (digits_to_nat cs).map Int.ofNat

/-- One iteration of the training-set loop of
`classify_string_classifier_rule` (source lines 97-108): the accumulator
holds the training examples built so far and the current value of the
Python variable `classifier_rule_spec_index`, which the loop reassigns on
every iteration. -/
def training_examples_step (acc : List (String × List String) × Option Nat)
    (p : Nat × AnswerGroup) : List (String × List String) × Option Nat :=
  let classifier_rule_spec_index := p.2.get_classifier_rule_index
  let classifier_rule_spec :=
    match classifier_rule_spec_index with
    | some k => p.2.rule_specs.get? k
    | none => none
  match classifier_rule_spec with
  | some rs =>
      (acc.1 ++ rs.training_data.map (fun doc => (doc, [ToString.toString p.1])),
        classifier_rule_spec_index)
  | none => (acc.1, classifier_rule_spec_index)

/-- Embedding of `classify_string_classifier_rule(state, normalized_answer)`
(source lines 83-131). -/
def classify_string_classifier_rule (icm : InteractionClassifierMapping)
    (classifier_registry : String → Option StringClassifier)
    (state : State) (normalized_answer : String) :
    Except String (Option ClassificationResult) :=
  match icm state.interaction.id with
  | none => .error "KeyError: interaction id not in INTERACTION_CLASSIFIER_MAPPING"
  | some cfg =>
    match classifier_registry cfg.algorithm_id with
    | none => .error "KeyError: no classifier for algorithm id"
    | some sc =>
      let init := (state.interaction.confirmed_unclassified_answers.map
        (fun doc => (doc, ([] : List String))), (none : Option Nat))
      let r := (state.interaction.answer_groups.enum).foldl training_examples_step init
      let training_examples := r.1
      let classifier_rule_spec_index := r.2
      if training_examples.length > 0 then
        let predicted_label := sc.predict_label training_examples normalized_answer
        if predicted_label ≠ DEFAULT_CLASSIFIER_LABEL then
          match py_int_of_string predicted_label with
          | none => .error "ValueError: invalid literal for int()"
          | some predicted_answer_group_index =>
            match pylist_get state.interaction.answer_groups
                predicted_answer_group_index with
            | none => .error "IndexError: list index out of range"
            | some predicted_answer_group =>
              let best_matched_rule_spec_index :=
                if predicted_answer_group.rule_specs.any
                    (fun rs => rs.rule_type == RULE_TYPE_CLASSIFIER) then
                  classifier_rule_spec_index
                else
                  (none : Option Nat)
              .ok (some {
                outcome := predicted_answer_group.outcome.to_dict,
                answer_group_index := predicted_answer_group_index,
                classification_certainty := none,
                rule_spec_index := best_matched_rule_spec_index })
        else
          .ok none
      else
        .ok none

/-- Embedding of `classify(state, answer)` (source lines 33-80).  The
`ENABLE_ML_CLASSIFIERS` feature flag and the two registries are threaded
through explicitly. -/
def classify (ENABLE_ML_CLASSIFIERS : Bool)
    (interaction_registry : String → Option InteractionInstance)
    (icm : InteractionClassifierMapping)
    (classifier_registry : String → Option StringClassifier)
    (state : State) (answer : String) : Except String ClassificationResult :=
  if ENABLE_ML_CLASSIFIERS then
    match interaction_registry state.interaction.id with
    | none => .error "KeyError: interaction id not registered"
    | some interaction_instance =>
      let normalized_answer := interaction_instance.normalize_answer answer
      if interaction_instance.is_string_classifier_trainable then
        match classify_string_classifier_rule icm classifier_registry state
            normalized_answer with
        | .error e => .error e
        | .ok response =>
          match response with
          | some r => .ok r
          | none =>
            match state.interaction.default_outcome with
            | some default_outcome =>
                .ok {
                  outcome := default_outcome.to_dict,
                  answer_group_index := (state.interaction.answer_groups.length : Int),
                  classification_certainty := some 0,
                  rule_spec_index := some 0 }
            | none =>
                .error ("Something has seriously gone wrong with the " ++
                  "exploration. Oppia does not know what to do with this " ++
                  "answer. Please contact the exploration owner.")
      else
        .error "No classifier found for interaction."
  else
    .error "AssertionError: ENABLE_ML_CLASSIFIERS"

/-! ## Datastore models and stores

The storage classes (`classifier_models.*` under `core/storage/classifier`)
are not in src/; the stores and their operations are modelled from the
spec's collaborator contracts (§6): keyed records with
`get` / `get_multi` / `create` / `create_multi` / `put_multi` and the
paginated training-job scan. -/

/-- Job ids are opaque strings. -/
abbrev JobId := String

/-- A persisted `ClassifierTrainingJobModel` record. -/
structure ClassifierTrainingJobModel where
  id : JobId
  algorithm_id : String
  interaction_id : String
  exp_id : String
  exp_version : Nat
  next_scheduled_check_time : Nat
  state_name : String
  status : TrainingJobStatus
  training_data : TrainingData
deriving DecidableEq, Repr, Inhabited

/-- A persisted `TrainingJobExplorationMappingModel` record. -/
structure TrainingJobExplorationMappingModel where
  exp_id : String
  exp_version : Nat
  state_name : String
  job_id : JobId
deriving DecidableEq, Repr

/-- The opaque trained-classifier payload. -/
abbrev ClassifierDataPayload := List (String × String)

/-- A persisted `ClassifierDataModel` record. -/
structure ClassifierDataModel where
  id : JobId
  exp_id : String
  exp_version_when_created : Nat
  state_name : String
  algorithm_id : String
  classifier_data : ClassifierDataPayload
  data_schema_version : Nat
deriving DecidableEq, Repr

/-- The job table plus the fresh-id counter used by `create_multi`. -/
structure JobStore where
  jobs : List ClassifierTrainingJobModel
  next_job_id : Nat
deriving DecidableEq, Repr

/-- The mapping table. -/
structure MappingStore where
  mappings : List TrainingJobExplorationMappingModel
deriving DecidableEq, Repr

/-- The classifier-data table. -/
structure ClassifierDataStore where
  records : List ClassifierDataModel
deriving DecidableEq, Repr

/-- Modelled from the spec: `ClassifierTrainingJobModel.get` — the record
with the given id, if any. -/
def JobStore.get (store : JobStore) (job_id : JobId) :
    Option ClassifierTrainingJobModel :=
  store.jobs.find? (fun m => m.id == job_id)

/-- Modelled from the spec: `ClassifierTrainingJobModel.get_multi` — one
nullable record per requested id, in order. -/
def JobStore.get_multi (store : JobStore) (job_ids : List JobId) :
    List (Option ClassifierTrainingJobModel) :=
  job_ids.map store.get

/-- Modelled from the spec: `put` of a single record — overwrite the stored
record with the same id. -/
def JobStore.put (store : JobStore) (m : ClassifierTrainingJobModel) :
    JobStore :=
  { store with jobs := store.jobs.map (fun old => if old.id == m.id then m else old) }

/-- Modelled from the spec: `put_multi` — overwrite each stored record with
the given record carrying the same id, leaving the others alone. -/
def JobStore.put_multi (store : JobStore)
    (ms : List ClassifierTrainingJobModel) : JobStore :=
  { store with jobs :=
      store.jobs.map (fun old => (ms.find? (fun m => m.id == old.id)).getD old) }

/-- The per-state fields assembled by `handle_trainable_states` into
`job_dicts_list` before calling `create_multi` (source lines 161-169). -/
structure JobDict where
  algorithm_id : String
  interaction_id : String
  exp_id : String
  exp_version : Nat
  state_name : String
  training_data : TrainingData
  status : TrainingJobStatus
deriving DecidableEq, Repr

/-- Modelled from the spec: `ClassifierTrainingJobModel.create_multi` —
persist one new record per field dict, generating fresh ids from the
store's counter, stamping the creation time as the initial
`next_scheduled_check_time`, and returning the new ids in order. -/
def JobStore.create_multi (store : JobStore) (job_dicts_list : List JobDict)
    (now : Nat) : List JobId × JobStore :=
  match job_dicts_list with
  | [] => ([], store)
  | d :: rest =>
    let job_id := "job_" ++ ToString.toString store.next_job_id
    let m : ClassifierTrainingJobModel := {
      id := job_id,
      algorithm_id := d.algorithm_id,
      interaction_id := d.interaction_id,
      exp_id := d.exp_id,
      exp_version := d.exp_version,
      next_scheduled_check_time := now,
      state_name := d.state_name,
      status := d.status,
      training_data := d.training_data }
    let store' : JobStore :=
      { jobs := store.jobs ++ [m], next_job_id := store.next_job_id + 1 }
    let (ids, store'') := store'.create_multi rest now
    (job_id :: ids, store'')

/-- Modelled from the spec: `ClassifierTrainingJobModel.query_training_jobs`
— the paginated scan behind `fetch_next_job`.  It returns, in storage
order, the jobs eligible for dispatch: status NEW or PENDING (terminal jobs
are never scanned) and `next_scheduled_check_time` due, i.e. ≤ now (a
leased job stays invisible until its lease deadline — spec §4.2 and the
glossary's lease entry).  The modelled store serves the whole result as a
single page, so the returned cursor is empty and `more` is false. -/
def JobStore.query_training_jobs (store : JobStore) (now : Nat) :
    List ClassifierTrainingJobModel × Option Nat × Bool :=
  (store.jobs.filter (fun j =>
      (j.status == TRAINING_JOB_STATUS_NEW
        || j.status == TRAINING_JOB_STATUS_PENDING)
      && j.next_scheduled_check_time ≤ now),
    none, false)

/-- Modelled from the spec: `TrainingJobExplorationMappingModel.get_models`
— one nullable mapping per requested state name, looked up by the
(exp_id, exp_version, state_name) key. -/
def MappingStore.get_models (store : MappingStore) (exp_id : String)
    (exp_version : Nat) (state_names : List String) :
    List (Option TrainingJobExplorationMappingModel) :=
  state_names.map (fun sn => store.mappings.find?
    (fun m => m.exp_id == exp_id && m.exp_version == exp_version
      && m.state_name == sn))

/-- Modelled from the spec: `ClassifierDataModel.get` (non-strict) — the
record with the given id, if any. -/
def ClassifierDataStore.get (store : ClassifierDataStore) (id : JobId) :
    Option ClassifierDataModel :=
  store.records.find? (fun r => r.id == id)

/-! ## Domain value objects (`classifier_domain`, not in src/)

Modelled from the spec §3: plain validated value objects carrying the same
attributes as the records. -/

/-- The `ClassifierTrainingJob` domain object. -/
structure ClassifierTrainingJob where
  job_id : JobId
  algorithm_id : String
  interaction_id : String
  exp_id : String
  exp_version : Nat
  next_scheduled_check_time : Nat
  state_name : String
  status : TrainingJobStatus
  training_data : TrainingData
deriving DecidableEq, Repr, Inhabited

/-- Modelled from the spec §3: a training job validates when its
`algorithm_id` matches the algorithm configured for its `interaction_id`
and its exploration version is a positive integer. -/
def ClassifierTrainingJob.validate (job : ClassifierTrainingJob)
    (icm : InteractionClassifierMapping) : Except String Unit :=
  if job.exp_version < 1 then
    .error "Expected exp_version to be a positive integer"
  else
    match icm job.interaction_id with
    | none => .error "Invalid interaction id in training job"
    | some cfg =>
      if cfg.algorithm_id == job.algorithm_id then .ok ()
      else .error "Invalid algorithm id in training job"

/-- Modelled from the spec: the domain object's status setter.  Transition
legality is enforced by the service against the configured table before
this is called. -/
def ClassifierTrainingJob.update_status (job : ClassifierTrainingJob)
    (status : TrainingJobStatus) : ClassifierTrainingJob :=
  { job with status := status }

/-- The `TrainingJobExplorationMapping` domain object. -/
structure TrainingJobExplorationMapping where
  exp_id : String
  exp_version : Nat
  state_name : String
  job_id : JobId
deriving DecidableEq, Repr

/-- Modelled from the spec §3/§4.1: a mapping validates when its
exploration version is a positive integer. -/
def TrainingJobExplorationMapping.validate
    (m : TrainingJobExplorationMapping) : Except String Unit :=
  if m.exp_version < 1 then
    .error "Expected exp_version to be a positive integer"
  else .ok ()

/-- Conversion of a domain mapping to its persisted record (the two carry
the same fields). -/
def TrainingJobExplorationMapping.to_model
    (m : TrainingJobExplorationMapping) : TrainingJobExplorationMappingModel :=
  { exp_id := m.exp_id, exp_version := m.exp_version,
    state_name := m.state_name, job_id := m.job_id }

/-- Modelled from the spec:
`TrainingJobExplorationMappingModel.create_multi` — persist one record per
domain mapping, in order. -/
def MappingStore.create_multi (store : MappingStore)
    (job_exploration_mappings : List TrainingJobExplorationMapping) :
    MappingStore :=
  { mappings := store.mappings
      ++ job_exploration_mappings.map TrainingJobExplorationMapping.to_model }

/-- The `ClassifierData` domain object. -/
structure ClassifierData where
  id : JobId
  exp_id : String
  exp_version_when_created : Nat
  state_name : String
  algorithm_id : String
  classifier_data : ClassifierDataPayload
  data_schema_version : Nat
deriving DecidableEq, Repr

/-- Modelled from the spec §4.1: a classifier-data object validates when
its creation version is a positive integer. -/
def ClassifierData.validate (c : ClassifierData) : Except String Unit :=
  if c.exp_version_when_created < 1 then
    .error "Expected exp_version_when_created to be a positive integer"
  else .ok ()

/-- Modelled from the spec: `ClassifierDataModel.create` — persist a new
record with the given fields and return its id. -/
def ClassifierDataStore.create (store : ClassifierDataStore) (id : JobId)
    (exp_id : String) (exp_version_when_created : Nat) (state_name : String)
    (algorithm_id : String) (classifier_data : ClassifierDataPayload)
    (data_schema_version : Nat) : JobId × ClassifierDataStore :=
  (id, { records := store.records ++ [{
      id := id, exp_id := exp_id,
      exp_version_when_created := exp_version_when_created,
      state_name := state_name, algorithm_id := algorithm_id,
      classifier_data := classifier_data,
      data_schema_version := data_schema_version }] })

/-! ## The service functions (`core/domain/classifier_services.py`) -/

/-- Embedding of `get_classifier_training_job_from_model` (source lines 353-374). -/
def get_classifier_training_job_from_model
    (classifier_training_job_model : ClassifierTrainingJobModel) :
    ClassifierTrainingJob :=
  { job_id := classifier_training_job_model.id,
    algorithm_id := classifier_training_job_model.algorithm_id,
    interaction_id := classifier_training_job_model.interaction_id,
    exp_id := classifier_training_job_model.exp_id,
    exp_version := classifier_training_job_model.exp_version,
    next_scheduled_check_time :=
      classifier_training_job_model.next_scheduled_check_time,
    state_name := classifier_training_job_model.state_name,
    status := classifier_training_job_model.status,
    training_data := classifier_training_job_model.training_data }

/-- Embedding of `get_classifier_training_job_by_id` (source lines 376-394); a strict
`get`, raising when no record has the id. -/
def get_classifier_training_job_by_id (jstore : JobStore) (job_id : JobId) :
    Except String ClassifierTrainingJob :=
  match jstore.get job_id with
  | none =>
      .error "Entity for class ClassifierTrainingJobModel with id not found"
  | some m => .ok (get_classifier_training_job_from_model m)

/-- Embedding of `get_classifier_from_model` (source lines 253-267). -/
def get_classifier_from_model (classifier_data_model : ClassifierDataModel) :
    ClassifierData :=
  { id := classifier_data_model.id,
    exp_id := classifier_data_model.exp_id,
    exp_version_when_created :=
      classifier_data_model.exp_version_when_created,
    state_name := classifier_data_model.state_name,
    algorithm_id := classifier_data_model.algorithm_id,
    classifier_data := classifier_data_model.classifier_data,
    data_schema_version := classifier_data_model.data_schema_version }

/-- Embedding of `get_classifier_by_id` (source lines 270-285); a strict `get`. -/
def get_classifier_by_id (cstore : ClassifierDataStore)
    (classifier_id : JobId) : Except String ClassifierData :=
  match cstore.get classifier_id with
  | none => .error "Entity for class ClassifierDataModel with id not found"
  | some classifier_data_model =>
      .ok (get_classifier_from_model classifier_data_model)

/-- Embedding of `create_classifier(job_id, classifier_data)` (source lines 288-339). -/
def create_classifier (icm : InteractionClassifierMapping)
    (jstore : JobStore) (cstore : ClassifierDataStore) (job_id : JobId)
    (classifier_data : ClassifierDataPayload) :
    Except String JobId × ClassifierDataStore :=
  match cstore.get job_id with
  | some _ =>
      (.error "The ClassifierDataModel corresponding to the job already exists.",
        cstore)
  | none =>
    match get_classifier_training_job_by_id jstore job_id with
    | .error e => (.error e, cstore)
    | .ok classifier_training_job =>
      let state_name := classifier_training_job.state_name
      let exp_id := classifier_training_job.exp_id
      let exp_version := classifier_training_job.exp_version
      let algorithm_id := classifier_training_job.algorithm_id
      let interaction_id := classifier_training_job.interaction_id
      match icm interaction_id with
      | none =>
          (.error "KeyError: interaction id not in INTERACTION_CLASSIFIER_MAPPING",
            cstore)
      | some cfg =>
        let data_schema_version : Option Nat :=
          if cfg.algorithm_id == algorithm_id then
            some cfg.current_data_schema_version
          else none
        match data_schema_version with
        | none =>
            (.error ("The algorithm_id of the job does not exist in the " ++
              "Interaction Classifier Mapping."), cstore)
        | some dsv =>
          let classifier : ClassifierData := {
            id := job_id, exp_id := exp_id,
            exp_version_when_created := exp_version,
            state_name := state_name, algorithm_id := algorithm_id,
            classifier_data := classifier_data,
            data_schema_version := dsv }
          match classifier.validate with
          | .error e => (.error e, cstore)
          | .ok () =>
            let (classifier_id, cstore') := cstore.create classifier.id
              classifier.exp_id classifier.exp_version_when_created
              classifier.state_name classifier.algorithm_id
              classifier.classifier_data classifier.data_schema_version
            (.ok classifier_id, cstore')

/-- The per-job body of the loop in
`_update_classifier_training_jobs_status` (source lines 443-461), run over
the requested ids paired with the records `get_multi` returned for them.
On success it yields the mutated in-memory records that the final
`put_multi` persists; any raise aborts the rest of the loop. -/
def update_training_jobs_loop (icm : InteractionClassifierMapping)
    (jstore : JobStore) (status : TrainingJobStatus) :
    List (JobId × Option ClassifierTrainingJobModel) →
    Except String (List ClassifierTrainingJobModel)
  | [] => .ok []
  | (_, none) :: _ =>
      .error ("The ClassifierTrainingJobModel corresponding to the job_id " ++
        "of the ClassifierTrainingJob does not exist.")
  | (job_id, some m) :: rest =>
    let initial_status := m.status
    if status ∈ ALLOWED_TRAINING_JOB_STATUS_CHANGES initial_status then
      match get_classifier_training_job_by_id jstore job_id with
      | .error e => .error e
      | .ok classifier_training_job =>
        let classifier_training_job :=
          classifier_training_job.update_status status
        match classifier_training_job.validate icm with
        | .error e => .error e
        | .ok () =>
          match update_training_jobs_loop icm jstore status rest with
          | .error e => .error e
          | .ok ms => .ok ({ m with status := status } :: ms)
    else
      .error ("The status change " ++ initial_status.toString ++ " to " ++
        status.toString ++ " is not valid.")

/-- Embedding of `_update_classifier_training_jobs_status(job_ids, status)`
(source lines 428-464).  The store is written only by the final
`put_multi`, so on any raise the returned store is the input store. -/
def _update_classifier_training_jobs_status
    (icm : InteractionClassifierMapping) (jstore : JobStore)
    (job_ids : List JobId) (status : TrainingJobStatus) :
    Except String Unit × JobStore :=
  let classifier_training_job_models := jstore.get_multi job_ids
  match update_training_jobs_loop icm jstore status
      (job_ids.zip classifier_training_job_models) with
  | .error e => (.error e, jstore)
  | .ok updated => (.ok (), jstore.put_multi updated)

/-- Embedding of `mark_training_job_complete` (source lines 467-474). -/
def mark_training_job_complete (icm : InteractionClassifierMapping)
    (jstore : JobStore) (job_id : JobId) : Except String Unit × JobStore :=
  _update_classifier_training_jobs_status icm jstore [job_id]
    TRAINING_JOB_STATUS_COMPLETE

/-- Embedding of `mark_training_jobs_failed` (source lines 477-484). -/
def mark_training_jobs_failed (icm : InteractionClassifierMapping)
    (jstore : JobStore) (job_ids : List JobId) :
    Except String Unit × JobStore :=
  _update_classifier_training_jobs_status icm jstore job_ids
    TRAINING_JOB_STATUS_FAILED

/-- Embedding of `mark_training_job_pending` (source lines 487-494). -/
def mark_training_job_pending (icm : InteractionClassifierMapping)
    (jstore : JobStore) (job_id : JobId) : Except String Unit × JobStore :=
  _update_classifier_training_jobs_status icm jstore [job_id]
    TRAINING_JOB_STATUS_PENDING

/-- Embedding of `_update_job_next_scheduled_check_time(job_id)`
(source lines 497-514): advance the job's lease deadline to
now + `CLASSIFIER_JOB_TTL_MINS`. -/
def _update_job_next_scheduled_check_time (jstore : JobStore)
    (job_id : JobId) (now : Nat) : Except String Unit × JobStore :=
  match jstore.get job_id with
  | none =>
      (.error ("The ClassifierTrainingJobModel corresponding to the job_id " ++
        "of the ClassifierTrainingJob does not exist."), jstore)
  | some classifier_training_job_model =>
      (.ok (), jstore.put { classifier_training_job_model with
        next_scheduled_check_time := now + CLASSIFIER_JOB_TTL_MINS })

/-- Embedding of `fetch_next_job()` (source lines 517-550).  The modelled store serves
the whole scan as a single page with `more = false`, so the source's
while-loop runs its body exactly once before breaking; the body is
embedded directly. -/
def fetch_next_job (icm : InteractionClassifierMapping) (jstore : JobStore)
    (now : Nat) : Except String (Option ClassifierTrainingJob) × JobStore :=
  let (classifier_training_jobs, _cursor, _more) :=
    jstore.query_training_jobs now
  let failed_job_ids := (classifier_training_jobs.filter
    (fun training_job => training_job.status == TRAINING_JOB_STATUS_PENDING)).map
    (fun training_job => training_job.id)
  let valid_jobs := classifier_training_jobs.filter
    (fun training_job => !(training_job.status == TRAINING_JOB_STATUS_PENDING))
  let marked : Except String Unit × JobStore :=
    if failed_job_ids.length > 0 then
      mark_training_jobs_failed icm jstore failed_job_ids
    else (.ok (), jstore)
  match marked with
  | (.error e, jstore') => (.error e, jstore')
  | (.ok (), jstore') =>
    match valid_jobs with
    | [] => (.ok none, jstore')
    | vj :: _ =>
      let next_job := get_classifier_training_job_from_model vj
      match _update_job_next_scheduled_check_time jstore' next_job.job_id now with
      | (.error e, jstore'') => (.error e, jstore'')
      | (.ok (), jstore'') => (.ok (some next_job), jstore'')

/-- The dict-building-and-validation loop of `handle_trainable_states`
(source lines 144-169): one validated job dict per state name, in order;
any raise aborts the whole call before anything is persisted. -/
def build_job_dicts (icm : InteractionClassifierMapping)
    (exploration : Exploration) (now : Nat) :
    List String → Except String (List JobDict)
  | [] => .ok []
  | state_name :: rest =>
    match exploration.states.lookup state_name with
    | none => .error "KeyError: state not found in exploration"
    | some state =>
      let training_data := state.get_training_data
      let interaction_id := state.interaction.id
      match icm interaction_id with
      | none =>
          .error "KeyError: interaction id not in INTERACTION_CLASSIFIER_MAPPING"
      | some cfg =>
        let algorithm_id := cfg.algorithm_id
        let next_scheduled_check_time := now
        let dummy_classifier_training_job : ClassifierTrainingJob := {
          job_id := "job_id_dummy", algorithm_id := algorithm_id,
          interaction_id := interaction_id, exp_id := exploration.id,
          exp_version := exploration.version,
          next_scheduled_check_time := next_scheduled_check_time,
          state_name := state_name, status := TRAINING_JOB_STATUS_NEW,
          training_data := training_data }
        match dummy_classifier_training_job.validate icm with
        | .error e => .error e
        | .ok () =>
          match build_job_dicts icm exploration now rest with
          | .error e => .error e
          | .ok ds => .ok ({
              algorithm_id := algorithm_id,
              interaction_id := interaction_id,
              exp_id := exploration.id,
              exp_version := exploration.version,
              state_name := state_name,
              training_data := training_data,
              status := TRAINING_JOB_STATUS_NEW } :: ds)

/-- The mapping-building-and-validation loop of `handle_trainable_states`
(source lines 179-188), run over the job dicts paired with the created
ids. -/
def build_job_exploration_mappings :
    List (JobDict × JobId) → Except String (List TrainingJobExplorationMapping)
  | [] => .ok []
  | (d, job_id) :: rest =>
    let job_exploration_mapping : TrainingJobExplorationMapping := {
      exp_id := d.exp_id, exp_version := d.exp_version,
      state_name := d.state_name, job_id := job_id }
    match job_exploration_mapping.validate with
    | .error e => .error e
    | .ok () =>
      match build_job_exploration_mappings rest with
      | .error e => .error e
      | .ok ms => .ok (job_exploration_mapping :: ms)

/-- Embedding of `handle_trainable_states(exploration, state_names)`
(source lines 134-191). -/
def handle_trainable_states (icm : InteractionClassifierMapping)
    (exploration : Exploration) (state_names : List String) (now : Nat)
    (jstore : JobStore) (mstore : MappingStore) :
    Except String Unit × JobStore × MappingStore :=
  match build_job_dicts icm exploration now state_names with
  | .error e => (.error e, jstore, mstore)
  | .ok job_dicts_list =>
    let (job_ids, jstore') := jstore.create_multi job_dicts_list now
    match build_job_exploration_mappings (job_dicts_list.zip job_ids) with
    | .error e => (.error e, jstore', mstore)
    | .ok job_exploration_mappings =>
        (.ok (), jstore', mstore.create_multi job_exploration_mappings)

/-- The loop of `get_classifier_training_jobs` turning the fetched job
records into domain objects (source lines 587-590); the source calls
`get_classifier_training_job_from_model` on each record unconditionally,
so a missing record (a `None` from `get_multi`) raises. -/
def jobs_from_models :
    List (Option ClassifierTrainingJobModel) →
    Except String (List ClassifierTrainingJob)
  | [] => .ok []
  | none :: _ =>
      .error "AttributeError: NoneType object has no training-job attributes"
  | some m :: rest =>
    match jobs_from_models rest with
    | .error e => .error e
    | .ok js => .ok (get_classifier_training_job_from_model m :: js)

/-- The backfill loop of `get_classifier_training_jobs` (source lines
592-596): walk the mapping records with their indexes and insert `None`
into the jobs list at each index whose mapping was missing. -/
def backfill_none_loop :
    List (Option TrainingJobExplorationMappingModel) → Nat →
    List (Option ClassifierTrainingJob) → List (Option ClassifierTrainingJob)
  | [], _, classifier_training_jobs => classifier_training_jobs
  | none :: rest, index, classifier_training_jobs =>
      backfill_none_loop rest (index + 1)
        (classifier_training_jobs.insertIdx index none)
  | some _ :: rest, index, classifier_training_jobs =>
      backfill_none_loop rest (index + 1) classifier_training_jobs

/-- Embedding of `get_classifier_training_jobs(exp_id, exp_version, state_names)`
(source lines 565-597). -/
def get_classifier_training_jobs (jstore : JobStore) (mstore : MappingStore)
    (exp_id : String) (exp_version : Nat) (state_names : List String) :
    Except String (List (Option ClassifierTrainingJob)) :=
  let training_job_exploration_mapping_models :=
    mstore.get_models exp_id exp_version state_names
  let job_ids := training_job_exploration_mapping_models.filterMap
    (fun mapping_model => mapping_model.map (fun m => m.job_id))
  let classifier_training_job_models := jstore.get_multi job_ids
  match jobs_from_models classifier_training_job_models with
  | .error e => .error e
  | .ok classifier_training_jobs =>
      .ok (backfill_none_loop training_job_exploration_mapping_models 0
        (classifier_training_jobs.map some))

/-- The old-state-name resolution loop of `handle_non_retrainable_states`
(source lines 226-229); a state name missing from the rename dict
raises. -/
def resolve_old_state_names (new_to_old_state_names : List (String × String)) :
    List String → Except String (List String)
  | [] => .ok []
  | current_state_name :: rest =>
    match new_to_old_state_names.lookup current_state_name with
    | none => .error "KeyError: state name not in new_to_old_state_names"
    | some old_state_name =>
      match resolve_old_state_names new_to_old_state_names rest with
      | .error e => .error e
      | .ok olds => .ok (old_state_name :: olds)

/-- The mapping-building loop of `handle_non_retrainable_states`
(source lines 233-247), run over the new state names paired with the jobs
found for their old names: a missing job is logged and skipped; a found
job yields a validated mapping from the new key to the existing job id. -/
def build_carry_over_mappings (exp_id : String) (current_exp_version : Nat) :
    List (String × Option ClassifierTrainingJob) →
    Except String (List TrainingJobExplorationMapping)
  | [] => .ok []
  | (_, none) :: rest =>
      build_carry_over_mappings exp_id current_exp_version rest
  | (new_state_name, some classifier_training_job) :: rest =>
    let job_exploration_mapping : TrainingJobExplorationMapping := {
      exp_id := exp_id, exp_version := current_exp_version,
      state_name := new_state_name,
      job_id := classifier_training_job.job_id }
    match job_exploration_mapping.validate with
    | .error e => .error e
    | .ok () =>
      match build_carry_over_mappings exp_id current_exp_version rest with
      | .error e => .error e
      | .ok ms => .ok (job_exploration_mapping :: ms)

/-- Embedding of `handle_non_retrainable_states(exploration, state_names,
new_to_old_state_names)` (source lines 194-250).  The function never
writes to the job store; it is passed through unchanged to make that
visible in the result. -/
def handle_non_retrainable_states (exploration : Exploration)
    (state_names : List String)
    (new_to_old_state_names : List (String × String)) (jstore : JobStore)
    (mstore : MappingStore) : Except String Unit × JobStore × MappingStore :=
  let exp_id := exploration.id
  let current_exp_version := exploration.version
  let old_exp_version := current_exp_version - 1
  if old_exp_version ≤ 0 then
    (.error ("This method should not be called by exploration with version " ++
      "number " ++ ToString.toString current_exp_version), jstore, mstore)
  else
    match resolve_old_state_names new_to_old_state_names state_names with
    | .error e => (.error e, jstore, mstore)
    | .ok state_names_to_retrieve =>
      match get_classifier_training_jobs jstore mstore exp_id old_exp_version
          state_names_to_retrieve with
      | .error e => (.error e, jstore, mstore)
      | .ok classifier_training_jobs =>
        match build_carry_over_mappings exp_id current_exp_version
            (state_names.zip classifier_training_jobs) with
        | .error e => (.error e, jstore, mstore)
        | .ok job_exploration_mappings =>
            (.ok (), jstore, mstore.create_multi job_exploration_mappings)

/-! ## Claims -/

/-- C5: for every exploration whose version is 1,
`handle_non_retrainable_states` raises the version-number error, and it
does so before creating any mapping: both stores come back exactly as they
went in. -/
theorem handle_non_retrainable_states_version_one_rejected
    (exploration : Exploration) (state_names : List String)
    (new_to_old_state_names : List (String × String)) (jstore : JobStore)
    (mstore : MappingStore) (h : exploration.version = 1) :
    handle_non_retrainable_states exploration state_names
      new_to_old_state_names jstore mstore =
      (.error ("This method should not be called by exploration with " ++
        "version number 1"), jstore, mstore) := by
  simp [handle_non_retrainable_states, h]
  rfl

/-- Witness for C5 at a concrete version-1 exploration and empty stores. -/
theorem handle_non_retrainable_states_version_one_rejected_witness :
    handle_non_retrainable_states ⟨"exp", 1, []⟩ ["Home"] [("Home", "Home")]
      ⟨[], 0⟩ ⟨[]⟩ =
      (.error ("This method should not be called by exploration with " ++
        "version number 1"), (⟨[], 0⟩ : JobStore), (⟨[]⟩ : MappingStore)) :=
  handle_non_retrainable_states_version_one_rejected
    ⟨"exp", 1, []⟩ ["Home"] [("Home", "Home")] ⟨[], 0⟩ ⟨[]⟩ rfl

/-- The configuration used by the concrete counterexample inputs: every
interaction is mapped to the same algorithm. -/
def every_interaction_icm : InteractionClassifierMapping :=
  fun _ => some ⟨"LDAStringClassifier", 1⟩

/-- A classifier-collaborator stub that always predicts the label "0". -/
def predict_zero_registry : String → Option StringClassifier :=
  fun _ => some ⟨fun _ _ => "0"⟩

/-- Answer group 0 of the C2 failing input: its only rule spec is the
classifier rule, at index 0, holding one training document. -/
def stale_index_group_zero : AnswerGroup :=
  ⟨[⟨RULE_TYPE_CLASSIFIER, ["doc a"]⟩], ⟨"outcome 0"⟩⟩

/-- Answer group 1 of the C2 failing input: a non-classifier rule spec at
index 0 and the classifier rule spec at index 1. -/
def stale_index_group_one : AnswerGroup :=
  ⟨[⟨"Equals", []⟩, ⟨RULE_TYPE_CLASSIFIER, ["doc b"]⟩], ⟨"outcome 1"⟩⟩

/-- The C2 failing input state: two answer groups, no confirmed
unclassified answers. -/
def stale_index_state : State :=
  ⟨⟨"TextInput", [stale_index_group_zero, stale_index_group_one],
    some ⟨"default"⟩, []⟩, []⟩

/-- C2: evaluation of the code at the failing input.  The classifier
predicts the non-default label "0", naming answer group 0, whose first
(and only) classifier-typed rule spec sits at index 0 — yet the returned
match carries `rule_spec_index = 1`: the loop at source lines 117-120
assigns the leftover `classifier_rule_spec_index` of the LAST answer group
scanned while building the training set, never the index of the rule spec
it just found in the predicted group.  The returned index 1 is not even a
valid index into the predicted group's rule-spec list, contradicting the
module's own docstring ("An index into the rule specs list of the matched
answer group"). -/
theorem classify_string_classifier_rule_stale_index_at_failing_input :
    classify_string_classifier_rule every_interaction_icm
        predict_zero_registry stale_index_state "answer" =
      .ok (some ⟨⟨"outcome 0"⟩, 0, none, some 1⟩)
    ∧ stale_index_group_zero.get_classifier_rule_index = some 0
    ∧ stale_index_group_zero.rule_specs.length = 1 := by
  refine ⟨?_, ?_, ?_⟩ <;> rfl

/-- C1 (amended): against a store holding exactly one COMPLETE job and one
stale PENDING job (due, i.e. lease deadline ≤ now) whose fields validate
against the configuration, `fetch_next_job` returns `None` and the only
store change is the PENDING job's status becoming FAILED; and against a
store holding exactly one NEW job that is due, it returns that job and
advances its `next_scheduled_check_time` to now plus the configured lease
TTL.  (The due-ness qualifications are forced by the lease mechanism: the
scan only sees jobs whose `next_scheduled_check_time` has passed.) -/
theorem fetch_next_job_lease_behavior (icm : InteractionClassifierMapping)
    (now : Nat) :
    (∀ (jstore : JobStore) (jc jp : ClassifierTrainingJobModel)
        (cfg : ClassifierAlgorithmConfig),
      jstore.jobs = [jc, jp] ∨ jstore.jobs = [jp, jc] →
      jc.status = TRAINING_JOB_STATUS_COMPLETE →
      jp.status = TRAINING_JOB_STATUS_PENDING →
      jp.next_scheduled_check_time ≤ now →
      jc.id ≠ jp.id →
      icm jp.interaction_id = some cfg →
      cfg.algorithm_id = jp.algorithm_id →
      1 ≤ jp.exp_version →
      (fetch_next_job icm jstore now).1 = .ok none ∧
      (fetch_next_job icm jstore now).2.jobs = jstore.jobs.map
        (fun m => if m.id == jp.id then
          { m with status := TRAINING_JOB_STATUS_FAILED } else m))
    ∧
    (∀ (jstore : JobStore) (jn : ClassifierTrainingJobModel),
      jstore.jobs = [jn] →
      jn.status = TRAINING_JOB_STATUS_NEW →
      jn.next_scheduled_check_time ≤ now →
      fetch_next_job icm jstore now =
        (.ok (some (get_classifier_training_job_from_model jn)),
          { jstore with jobs := [{ jn with next_scheduled_check_time :=
            now + CLASSIFIER_JOB_TTL_MINS }] })) := by
  constructor
  · intro jstore jc jp cfg hjobs hc hp hdue hne hicm halg hver
    have hbne : (jc.id == jp.id) = false := beq_eq_false_iff_ne.mpr hne
    have hbne' : (jp.id == jc.id) = false :=
      beq_eq_false_iff_ne.mpr (Ne.symm hne)
    rcases hjobs with h | h <;>
      simp [fetch_next_job, JobStore.query_training_jobs, h, hc, hp,
        decide_eq_true hdue, mark_training_jobs_failed,
        _update_classifier_training_jobs_status, JobStore.get_multi,
        JobStore.get, hbne, hbne', update_training_jobs_loop,
        ALLOWED_TRAINING_JOB_STATUS_CHANGES,
        get_classifier_training_job_by_id,
        ClassifierTrainingJob.update_status, ClassifierTrainingJob.validate,
        get_classifier_training_job_from_model, hicm, halg, hne,
        Ne.symm hne, Nat.not_lt.mpr hver, JobStore.put_multi,
        TRAINING_JOB_STATUS_NEW, TRAINING_JOB_STATUS_PENDING,
        TRAINING_JOB_STATUS_FAILED, TRAINING_JOB_STATUS_COMPLETE]
  · intro jstore jn h hn hdue
    simp [fetch_next_job, JobStore.query_training_jobs, h, hn,
      decide_eq_true hdue, _update_job_next_scheduled_check_time,
      JobStore.get, JobStore.put, get_classifier_training_job_from_model,
      TRAINING_JOB_STATUS_NEW, TRAINING_JOB_STATUS_PENDING]

/-- A COMPLETE job used by the concrete C1 instances. -/
def complete_job : ClassifierTrainingJobModel :=
  ⟨"job_c", "LDAStringClassifier", "TextInput", "exp", 1, 0, "Home",
    .COMPLETE, []⟩

/-- A stale PENDING job (lease deadline 4 ≤ now = 10) used by the concrete
C1 instances. -/
def stale_pending_job : ClassifierTrainingJobModel :=
  ⟨"job_p", "LDAStringClassifier", "TextInput", "exp", 1, 4, "About",
    .PENDING, []⟩

/-- A due NEW job (deadline 9 ≤ now = 10) used by the concrete C1
instances. -/
def due_new_job : ClassifierTrainingJobModel :=
  ⟨"job_n", "LDAStringClassifier", "TextInput", "exp", 1, 9, "Home",
    .NEW, []⟩

/-- Witness for C1 at concrete stores and now = 10. -/
theorem fetch_next_job_lease_behavior_witness :
    ((fetch_next_job every_interaction_icm
        ⟨[complete_job, stale_pending_job], 0⟩ 10).1 = .ok none ∧
      (fetch_next_job every_interaction_icm
        ⟨[complete_job, stale_pending_job], 0⟩ 10).2.jobs =
        [complete_job,
          { stale_pending_job with status := TRAINING_JOB_STATUS_FAILED }]) ∧
    fetch_next_job every_interaction_icm ⟨[due_new_job], 0⟩ 10 =
      (.ok (some (get_classifier_training_job_from_model due_new_job)),
        ⟨[{ due_new_job with next_scheduled_check_time :=
          10 + CLASSIFIER_JOB_TTL_MINS }], 0⟩) := by
  refine ⟨?_, ?_⟩
  · have h := (fetch_next_job_lease_behavior every_interaction_icm 10).1
      ⟨[complete_job, stale_pending_job], 0⟩ complete_job stale_pending_job
      ⟨"LDAStringClassifier", 1⟩ (Or.inl rfl) rfl rfl (by decide)
      (by decide) rfl rfl (by decide)
    exact ⟨h.1, h.2.trans (by decide)⟩
  · exact (fetch_next_job_lease_behavior every_interaction_icm 10).2
      ⟨[due_new_job], 0⟩ due_new_job rfl rfl (by decide)

/-- A NEW job whose `next_scheduled_check_time` (7) is in the future of the
call time (3). -/
def future_new_job : ClassifierTrainingJobModel :=
  ⟨"job_f", "LDAStringClassifier", "TextInput", "exp", 1, 7, "Home",
    .NEW, []⟩

/-- C1 counterexample to the claim as stated: a store containing exactly
one NEW job, but one whose `next_scheduled_check_time` has not yet passed.
The claim says `fetch_next_job` returns that job; the scan's due-time
filter hides it, the call returns `None`, and the store is untouched. -/
theorem fetch_next_job_future_new_job_counterexample :
    (fetch_next_job every_interaction_icm ⟨[future_new_job], 0⟩ 3).1 =
      .ok none ∧
    (.ok none : Except String (Option ClassifierTrainingJob)) ≠
      .ok (some (get_classifier_training_job_from_model future_new_job)) ∧
    (fetch_next_job every_interaction_icm ⟨[future_new_job], 0⟩ 3).2 =
      ⟨[future_new_job], 0⟩ := by
  refine ⟨rfl, by simp, rfl⟩

/-- Helper for C3: when every requested id before the first illegal one
resolves to a stored record whose transition to `status` is legal and
whose updated domain object validates, the update loop raises the
transition error of the first illegal job. -/
lemma update_training_jobs_loop_first_illegal
    (icm : InteractionClassifierMapping) (jstore : JobStore)
    (status : TrainingJobStatus) (pre post : List JobId) (bad_id : JobId)
    (mbad : ClassifierTrainingJobModel)
    (hpre : ∀ p ∈ pre, ∃ m, jstore.get p = some m ∧
      status ∈ ALLOWED_TRAINING_JOB_STATUS_CHANGES m.status ∧
      ((get_classifier_training_job_from_model m).update_status
        status).validate icm = .ok ())
    (hbad : jstore.get bad_id = some mbad)
    (hnot : status ∉ ALLOWED_TRAINING_JOB_STATUS_CHANGES mbad.status) :
    update_training_jobs_loop icm jstore status
      ((pre ++ bad_id :: post).zip (jstore.get_multi (pre ++ bad_id :: post)))
      = .error ("The status change " ++ mbad.status.toString ++ " to " ++
        status.toString ++ " is not valid.") := by
  induction pre with
  | nil =>
    simp [JobStore.get_multi, update_training_jobs_loop, hbad, hnot]
  | cons p rest ih =>
    obtain ⟨m, hm, hall, hval⟩ := hpre p (List.mem_cons_self p rest)
    have ih' := ih (fun q hq => hpre q (List.mem_cons_of_mem p hq))
    simp [JobStore.get_multi, update_training_jobs_loop, hm, hall,
      get_classifier_training_job_by_id, hval] at ih' ⊢
    rw [ih']

/-- C3: for every batch call to `_update_classifier_training_jobs_status`
whose requested ids consist of jobs with legal transitions followed by a
first existing job whose current status does not allow the requested one,
the call raises the error naming that job's current status and the
requested status, and the job store comes back exactly as it went in — no
stored job's status changed, including the jobs earlier in the batch whose
own transition was legal. -/
theorem update_classifier_training_jobs_status_fail_fast
    (icm : InteractionClassifierMapping) (jstore : JobStore)
    (status : TrainingJobStatus) (pre post : List JobId) (bad_id : JobId)
    (mbad : ClassifierTrainingJobModel)
    (hpre : ∀ p ∈ pre, ∃ m, jstore.get p = some m ∧
      status ∈ ALLOWED_TRAINING_JOB_STATUS_CHANGES m.status ∧
      ((get_classifier_training_job_from_model m).update_status
        status).validate icm = .ok ())
    (hbad : jstore.get bad_id = some mbad)
    (hnot : status ∉ ALLOWED_TRAINING_JOB_STATUS_CHANGES mbad.status) :
    _update_classifier_training_jobs_status icm jstore
      (pre ++ bad_id :: post) status =
      (.error ("The status change " ++ mbad.status.toString ++ " to " ++
        status.toString ++ " is not valid."), jstore) := by
  simp only [_update_classifier_training_jobs_status,
    update_training_jobs_loop_first_illegal icm jstore status pre post
      bad_id mbad hpre hbad hnot]

/-- Witness for C3: a store holding one COMPLETE job; requesting PENDING
(not in the allowed set out of COMPLETE) raises the transition error and
leaves the store unchanged. -/
theorem update_classifier_training_jobs_status_fail_fast_witness :
    _update_classifier_training_jobs_status every_interaction_icm
      ⟨[complete_job], 0⟩ ["job_c"] TRAINING_JOB_STATUS_PENDING =
      (.error "The status change COMPLETE to PENDING is not valid.",
        (⟨[complete_job], 0⟩ : JobStore)) :=
  update_classifier_training_jobs_status_fail_fast every_interaction_icm
    ⟨[complete_job], 0⟩ TRAINING_JOB_STATUS_PENDING [] [] "job_c"
    complete_job (fun p hp => absurd hp (List.not_mem_nil p)) rfl
    (by decide)

/-- Helper for C8: when every answer group's classifier rule spec (if any)
carries no training data, one training-set step starting from an empty
example list keeps it empty. -/
lemma training_examples_step_nil (p : Nat × AnswerGroup) (cri : Option Nat)
    (hp : ∀ k rs, p.2.get_classifier_rule_index = some k →
      p.2.rule_specs.get? k = some rs → rs.training_data = []) :
    training_examples_step ([], cri) p =
      ([], p.2.get_classifier_rule_index) := by
  unfold training_examples_step
  cases hk : p.2.get_classifier_rule_index with
  | none => simp
  | some k =>
    cases hrs : p.2.rule_specs.get? k with
    | none =>
      have hrs' := hrs
      rw [List.get?_eq_getElem?] at hrs'
      simp [hrs']
    | some rs =>
      have hd := hp k rs hk hrs
      rw [List.get?_eq_getElem?] at hrs
      simp [hrs, hd]

/-- Helper for C8: the whole training-set loop keeps the example list
empty under the same no-training-data hypothesis. -/
lemma training_examples_fold_nil (groups : List (Nat × AnswerGroup))
    (hgroups : ∀ p ∈ groups, ∀ k rs, p.2.get_classifier_rule_index = some k →
      p.2.rule_specs.get? k = some rs → rs.training_data = []) :
    ∀ cri, (groups.foldl training_examples_step ([], cri)).1 = [] := by
  induction groups with
  | nil => intro cri; rfl
  | cons p rest ih =>
    intro cri
    rw [List.foldl_cons,
      training_examples_step_nil p cri (hgroups p (List.mem_cons_self p rest))]
    exact ih (fun q hq => hgroups q (List.mem_cons_of_mem p hq)) _

/-- Helper for C8: with no confirmed unclassified answers and no
classifier training data in any answer group, the matcher finds an empty
training set and reports no match immediately. -/
lemma classify_string_classifier_rule_empty_training_set
    (icm : InteractionClassifierMapping)
    (creg : String → Option StringClassifier) (state : State) (na : String)
    (cfg : ClassifierAlgorithmConfig) (sc : StringClassifier)
    (hicm : icm state.interaction.id = some cfg)
    (hcreg : creg cfg.algorithm_id = some sc)
    (hconf : state.interaction.confirmed_unclassified_answers = [])
    (hgroups : ∀ g ∈ state.interaction.answer_groups, ∀ k rs,
      g.get_classifier_rule_index = some k → g.rule_specs.get? k = some rs →
      rs.training_data = []) :
    classify_string_classifier_rule icm creg state na = .ok none := by
  have hf : (state.interaction.answer_groups.enum.foldl training_examples_step
      (state.interaction.confirmed_unclassified_answers.map
        (fun doc => (doc, ([] : List String))), (none : Option Nat))).1 = [] := by
    rw [hconf]
    refine training_examples_fold_nil _ (fun p hp => ?_) none
    exact hgroups p.2
      (List.getElem?_mem (List.mem_enum_iff_getElem?.mp hp))
  simp [classify_string_classifier_rule, hicm, hcreg, hf]

/-- C8: with the ML flag enabled, for every state whose interaction is
string-classifier trainable, whose training set is empty (no confirmed
unclassified answers and no classifier-rule training data in any answer
group), and whose interaction has a default outcome, `classify` returns
the default outcome's dict with `answer_group_index` equal to the number
of answer groups, `classification_certainty` 0.0 and `rule_spec_index`
0. -/
theorem classify_empty_training_set_default_outcome
    (ireg : String → Option InteractionInstance)
    (icm : InteractionClassifierMapping)
    (creg : String → Option StringClassifier) (state : State)
    (answer : String) (inst : InteractionInstance)
    (cfg : ClassifierAlgorithmConfig) (sc : StringClassifier)
    (default_outcome : Outcome)
    (hreg : ireg state.interaction.id = some inst)
    (htrain : inst.is_string_classifier_trainable = true)
    (hicm : icm state.interaction.id = some cfg)
    (hcreg : creg cfg.algorithm_id = some sc)
    (hconf : state.interaction.confirmed_unclassified_answers = [])
    (hgroups : ∀ g ∈ state.interaction.answer_groups, ∀ k rs,
      g.get_classifier_rule_index = some k → g.rule_specs.get? k = some rs →
      rs.training_data = [])
    (hdef : state.interaction.default_outcome = some default_outcome) :
    classify true ireg icm creg state answer =
      .ok ⟨default_outcome, (state.interaction.answer_groups.length : Int),
        some 0, some 0⟩ := by
  have h0 := classify_string_classifier_rule_empty_training_set icm creg
    state (inst.normalize_answer answer) cfg sc hicm hcreg hconf hgroups
  simp [classify, hreg, htrain, h0, hdef, Outcome.to_dict]

/-- A state whose single answer group's classifier rule spec has no
training data and which carries a default outcome. -/
def empty_training_state : State :=
  ⟨⟨"TextInput", [⟨[⟨RULE_TYPE_CLASSIFIER, []⟩], ⟨"group outcome"⟩⟩],
    some ⟨"default outcome"⟩, []⟩, []⟩

/-- An interaction registry whose normalizer is the identity and whose
interactions are all string-classifier trainable. -/
def identity_interaction_registry : String → Option InteractionInstance :=
  fun _ => some ⟨fun a => a, true⟩

/-- Witness for C8 at the concrete empty-training-set state. -/
theorem classify_empty_training_set_default_outcome_witness :
    classify true identity_interaction_registry every_interaction_icm
      predict_zero_registry empty_training_state "hello" =
      .ok ⟨⟨"default outcome"⟩, 1, some 0, some 0⟩ :=
  classify_empty_training_set_default_outcome identity_interaction_registry
    every_interaction_icm predict_zero_registry empty_training_state "hello"
    ⟨fun a => a, true⟩ ⟨"LDAStringClassifier", 1⟩ ⟨fun _ _ => "0"⟩ 
    ⟨"default outcome"⟩ rfl rfl rfl rfl rfl
    (by
      intro g hg k rs hk hrs
      simp only [empty_training_state, List.mem_singleton] at hg
      subst hg
      have hk0 : (some 0 : Option Nat) = some k := hk
      obtain rfl : (0 : Nat) = k := by injection hk0
      have hrs0 : (some (⟨RULE_TYPE_CLASSIFIER, ([] : List String)⟩ :
        RuleSpec)) = some rs := hrs
      obtain rfl : (⟨RULE_TYPE_CLASSIFIER, ([] : List String)⟩ : RuleSpec)
        = rs := by injection hrs0
      rfl)
    rfl

/-- C9: for a job whose algorithm matches the configured algorithm for its
interaction and for which no classifier record exists yet,
`create_classifier` succeeds, and reading the created record back through
`get_classifier_from_model` reproduces the job's `algorithm_id` and
`state_name` and the `classifier_data` passed in. -/
theorem create_classifier_get_classifier_roundtrip
    (icm : InteractionClassifierMapping) (jstore : JobStore)
    (cstore : ClassifierDataStore) (job_id : JobId)
    (classifier_data : ClassifierDataPayload)
    (jm : ClassifierTrainingJobModel) (cfg : ClassifierAlgorithmConfig)
    (hnew : cstore.get job_id = none)
    (hjob : jstore.get job_id = some jm)
    (hicm : icm jm.interaction_id = some cfg)
    (halg : cfg.algorithm_id = jm.algorithm_id)
    (hver : 1 ≤ jm.exp_version) :
    ∃ (cstore' : ClassifierDataStore) (rec : ClassifierDataModel),
      create_classifier icm jstore cstore job_id classifier_data =
        (.ok job_id, cstore') ∧
      cstore'.get job_id = some rec ∧
      (get_classifier_from_model rec).algorithm_id = jm.algorithm_id ∧
      (get_classifier_from_model rec).state_name = jm.state_name ∧
      (get_classifier_from_model rec).classifier_data = classifier_data := by
  refine ⟨⟨cstore.records ++ [⟨job_id, jm.exp_id, jm.exp_version,
      jm.state_name, jm.algorithm_id, classifier_data,
      cfg.current_data_schema_version⟩]⟩,
    ⟨job_id, jm.exp_id, jm.exp_version, jm.state_name, jm.algorithm_id,
      classifier_data, cfg.current_data_schema_version⟩,
    ?_, ?_, rfl, rfl, rfl⟩
  · simp [create_classifier, hnew, get_classifier_training_job_by_id, hjob,
      get_classifier_training_job_from_model, hicm, halg,
      ClassifierData.validate, Nat.not_lt.mpr hver,
      ClassifierDataStore.create]
  · simp only [ClassifierDataStore.get] at hnew ⊢
    rw [List.find?_append, hnew]
    simp

/-- Witness for C9: an empty classifier-data store and a store holding the
COMPLETE job; creating and reading back reproduces the fields. -/
theorem create_classifier_get_classifier_roundtrip_witness :
    ∃ (cstore' : ClassifierDataStore) (rec : ClassifierDataModel),
      create_classifier every_interaction_icm ⟨[complete_job], 0⟩ ⟨[]⟩
        "job_c" [("weights", "w1")] = (.ok "job_c", cstore') ∧
      cstore'.get "job_c" = some rec ∧
      (get_classifier_from_model rec).algorithm_id =
        complete_job.algorithm_id ∧
      (get_classifier_from_model rec).state_name = complete_job.state_name ∧
      (get_classifier_from_model rec).classifier_data =
        [("weights", "w1")] :=
  create_classifier_get_classifier_roundtrip every_interaction_icm
    ⟨[complete_job], 0⟩ ⟨[]⟩ "job_c" [("weights", "w1")] complete_job
    ⟨"LDAStringClassifier", 1⟩ rfl rfl rfl rfl (by decide)

/-- Helper for C4: `create_multi` appends one record per dict, in order,
stamped with fresh consecutive ids, and returns those ids. -/
lemma create_multi_spec (now : Nat) :
    ∀ (job_dicts_list : List JobDict) (store : JobStore),
    ∃ ids, store.create_multi job_dicts_list now =
      (ids, ⟨store.jobs ++ (job_dicts_list.zip ids).map
        (fun p => ⟨p.2, p.1.algorithm_id, p.1.interaction_id, p.1.exp_id,
          p.1.exp_version, now, p.1.state_name, p.1.status,
          p.1.training_data⟩),
        store.next_job_id + job_dicts_list.length⟩) ∧
      ids.length = job_dicts_list.length := by
  intro job_dicts_list
  induction job_dicts_list with
  | nil => intro store; exact ⟨[], by simp [JobStore.create_multi], rfl⟩
  | cons d rest ih =>
    intro store
    obtain ⟨ids, heq, hlen⟩ := ih ⟨store.jobs ++
      [⟨"job_" ++ ToString.toString store.next_job_id, d.algorithm_id,
        d.interaction_id, d.exp_id, d.exp_version, now, d.state_name,
        d.status, d.training_data⟩], store.next_job_id + 1⟩
    refine ⟨("job_" ++ ToString.toString store.next_job_id) :: ids, ?_,
      by simp [hlen]⟩
    simp only [JobStore.create_multi, heq]
    simp only [Prod.mk.injEq, JobStore.mk.injEq, List.length_cons]
    refine ⟨?_, ?_, ?_⟩
    · trivial
    · simp
    · omega

/-- Helper for C4: when every state name resolves to a state whose
interaction is configured and the exploration version is positive, the
dict-building loop succeeds and yields one NEW dict per state name, in
order, carrying the exploration's id and version. -/
lemma build_job_dicts_spec (icm : InteractionClassifierMapping)
    (exploration : Exploration) (now : Nat) (state_names : List String)
    (hver : 1 ≤ exploration.version) :
    (∀ sn ∈ state_names, ∃ st cfg,
      exploration.states.lookup sn = some st ∧
      icm st.interaction.id = some cfg) →
    ∃ ds, build_job_dicts icm exploration now state_names = .ok ds ∧
      ds.length = state_names.length ∧
      (∀ i : Nat, (ds[i]?).map JobDict.state_name = state_names[i]?) ∧
      (∀ d ∈ ds, d.status = TRAINING_JOB_STATUS_NEW ∧
        d.exp_version = exploration.version ∧ d.exp_id = exploration.id) := by
  induction state_names with
  | nil =>
    intro _
    exact ⟨[], rfl, rfl, fun i => by simp, by simp⟩
  | cons sn rest ih =>
    intro hstates
    obtain ⟨st, cfg, hlook, hicm⟩ := hstates sn (List.mem_cons_self sn rest)
    obtain ⟨ds, hds, hdlen, hnames, hprops⟩ :=
      ih (fun q hq => hstates q (List.mem_cons_of_mem sn hq))
    refine ⟨⟨cfg.algorithm_id, st.interaction.id, exploration.id,
        exploration.version, sn, st.get_training_data,
        TRAINING_JOB_STATUS_NEW⟩ :: ds, ?_, by simp [hdlen], ?_, ?_⟩
    · simp only [build_job_dicts, hlook, hicm,
        ClassifierTrainingJob.validate, hds]
      rw [if_neg (Nat.not_lt.mpr hver)]
      simp
    · intro i
      cases i with
      | zero => simp
      | succ i => simpa using hnames i
    · intro d hd
      rcases List.mem_cons.mp hd with h | h
      · subst h; exact ⟨rfl, rfl, rfl⟩
      · exact hprops d h

/-- Helper for C4: mapping building succeeds when every dict carries a
positive exploration version, producing one mapping per (dict, id) pair. -/
lemma build_job_exploration_mappings_spec :
    ∀ (l : List (JobDict × JobId)),
    (∀ p ∈ l, 1 ≤ p.1.exp_version) →
    build_job_exploration_mappings l = .ok (l.map (fun p =>
      ⟨p.1.exp_id, p.1.exp_version, p.1.state_name, p.2⟩)) := by
  intro l
  induction l with
  | nil => intro _; rfl
  | cons p rest ih =>
    intro hl
    have h1 := hl p (List.mem_cons_self p rest)
    have h2 := ih (fun q hq => hl q (List.mem_cons_of_mem p hq))
    simp only [build_job_exploration_mappings,
      TrainingJobExplorationMapping.validate]
    rw [if_neg (Nat.not_lt.mpr h1), h2]
    simp

/-- C4: for every exploration (of positive version) and list of N state
names each of which resolves to a state with a configured interaction
(so each per-state job passes validation), `handle_trainable_states`
creates exactly N jobs, each with status NEW, and exactly N mappings, one
per state name in order, each carrying the exploration's version and the
id returned for that state's created job. -/
theorem handle_trainable_states_creates_jobs_and_mappings
    (icm : InteractionClassifierMapping) (exploration : Exploration)
    (state_names : List String) (now : Nat) (jstore : JobStore)
    (mstore : MappingStore) (hver : 1 ≤ exploration.version)
    (hstates : ∀ sn ∈ state_names, ∃ st cfg,
      exploration.states.lookup sn = some st ∧
      icm st.interaction.id = some cfg) :
    ∃ (jstore' : JobStore) (mstore' : MappingStore)
      (new_jobs : List ClassifierTrainingJobModel)
      (new_mappings : List TrainingJobExplorationMappingModel),
      handle_trainable_states icm exploration state_names now jstore mstore
        = (.ok (), jstore', mstore') ∧
      jstore'.jobs = jstore.jobs ++ new_jobs ∧
      mstore'.mappings = mstore.mappings ++ new_mappings ∧
      new_jobs.length = state_names.length ∧
      new_mappings.length = state_names.length ∧
      (∀ i, i < state_names.length →
        ∃ (j : ClassifierTrainingJobModel)
          (m : TrainingJobExplorationMappingModel),
          new_jobs[i]? = some j ∧ new_mappings[i]? = some m ∧
          j.status = TRAINING_JOB_STATUS_NEW ∧
          some j.state_name = state_names[i]? ∧
          m.exp_version = exploration.version ∧
          m.exp_id = exploration.id ∧
          some m.state_name = state_names[i]? ∧
          m.job_id = j.id) := by
  obtain ⟨ds, hds, hdlen, hnames, hprops⟩ :=
    build_job_dicts_spec icm exploration now state_names hver hstates
  obtain ⟨ids, hcm, hilen⟩ := create_multi_spec now ds jstore
  have hmapeq := build_job_exploration_mappings_spec (ds.zip ids)
    (fun p hp => by
      have hmem : p.1 ∈ ds := (List.of_mem_zip hp).1
      have := (hprops p.1 hmem).2.1
      omega)
  refine ⟨⟨jstore.jobs ++ (ds.zip ids).map
      (fun p => ⟨p.2, p.1.algorithm_id, p.1.interaction_id,
        p.1.exp_id, p.1.exp_version, now, p.1.state_name, p.1.status,
        p.1.training_data⟩), jstore.next_job_id + ds.length⟩,
    mstore.create_multi ((ds.zip ids).map (fun p =>
      ⟨p.1.exp_id, p.1.exp_version, p.1.state_name, p.2⟩)),
    (ds.zip ids).map (fun p => ⟨p.2, p.1.algorithm_id, p.1.interaction_id,
      p.1.exp_id, p.1.exp_version, now, p.1.state_name, p.1.status,
      p.1.training_data⟩),
    (ds.zip ids).map (fun p =>
      ⟨p.1.exp_id, p.1.exp_version, p.1.state_name, p.2⟩),
    ?_, rfl, ?_, ?_, ?_, ?_⟩
  · simp only [handle_trainable_states, hds, hcm, hmapeq]
  · simp [MappingStore.create_multi, TrainingJobExplorationMapping.to_model]
  · simp [List.length_zip, hdlen, hilen]
  · simp [List.length_zip, hdlen, hilen]
  · intro i hi
    have hdi : ∃ d, ds[i]? = some d := by
      rw [List.getElem?_eq_getElem (by omega)]
      exact ⟨_, rfl⟩
    obtain ⟨d, hd⟩ := hdi
    have hji : ∃ jid, ids[i]? = some jid := by
      rw [List.getElem?_eq_getElem (by omega)]
      exact ⟨_, rfl⟩
    obtain ⟨jid, hj⟩ := hji
    have hz : (ds.zip ids)[i]? = some (d, jid) :=
      List.getElem?_zip_eq_some.mpr ⟨hd, hj⟩
    have hdmem : d ∈ ds := List.getElem?_mem hd
    obtain ⟨hst, hver', hid⟩ := hprops d hdmem
    refine ⟨⟨jid, d.algorithm_id, d.interaction_id, d.exp_id, d.exp_version,
      now, d.state_name, d.status, d.training_data⟩,
      ⟨d.exp_id, d.exp_version, d.state_name, jid⟩, ?_, ?_, hst, ?_, hver',
      hid, ?_, rfl⟩
    · rw [List.getElem?_map, hz]; rfl
    · rw [List.getElem?_map, hz]; rfl
    · have := hnames i
      rw [hd] at this
      simpa using this
    · have := hnames i
      rw [hd] at this
      simpa using this

/-- Witness for C4: a version-1 exploration with two trainable states and
empty stores; two NEW jobs and two aligned mappings are created. -/
theorem handle_trainable_states_creates_jobs_and_mappings_witness :
    ∃ (jstore' : JobStore) (mstore' : MappingStore)
      (new_jobs : List ClassifierTrainingJobModel)
      (new_mappings : List TrainingJobExplorationMappingModel),
      handle_trainable_states every_interaction_icm
        ⟨"exp", 1, [("Home", ⟨⟨"TextInput", [], some ⟨"d"⟩, []⟩, []⟩),
          ("About", ⟨⟨"TextInput", [], some ⟨"d"⟩, []⟩, []⟩)]⟩
        ["Home", "About"] 0 ⟨[], 0⟩ ⟨[]⟩ = (.ok (), jstore', mstore') ∧
      jstore'.jobs = ([] : List ClassifierTrainingJobModel) ++ new_jobs ∧
      mstore'.mappings =
        ([] : List TrainingJobExplorationMappingModel) ++ new_mappings ∧
      new_jobs.length = 2 ∧
      new_mappings.length = 2 ∧
      (∀ i, i < 2 →
        ∃ (j : ClassifierTrainingJobModel)
          (m : TrainingJobExplorationMappingModel),
          new_jobs[i]? = some j ∧ new_mappings[i]? = some m ∧
          j.status = TRAINING_JOB_STATUS_NEW ∧
          some j.state_name = ["Home", "About"][i]? ∧
          m.exp_version = 1 ∧ m.exp_id = "exp" ∧
          some m.state_name = ["Home", "About"][i]? ∧
          m.job_id = j.id) :=
  handle_trainable_states_creates_jobs_and_mappings every_interaction_icm
    ⟨"exp", 1, [("Home", ⟨⟨"TextInput", [], some ⟨"d"⟩, []⟩, []⟩),
      ("About", ⟨⟨"TextInput", [], some ⟨"d"⟩, []⟩, []⟩)]⟩
    ["Home", "About"] 0 ⟨[], 0⟩ ⟨[]⟩ (by decide)
    (by
      intro sn hsn
      rcases List.mem_cons.mp hsn with h | h
      · subst h
        exact ⟨⟨⟨"TextInput", [], some ⟨"d"⟩, []⟩, []⟩,
          ⟨"LDAStringClassifier", 1⟩, rfl, rfl⟩
      · rcases List.mem_singleton.mp h with rfl
        exact ⟨⟨⟨"TextInput", [], some ⟨"d"⟩, []⟩, []⟩,
          ⟨"LDAStringClassifier", 1⟩, rfl, rfl⟩)

/-- Inserting at the length of a prefix splices an element between the
prefix and the rest. -/
lemma insertIdx_append_self (pfx l : List α) (x : α) :
    (pfx ++ l).insertIdx pfx.length x = pfx ++ x :: l := by
  induction pfx with
  | nil => simp
  | cons a rest ih => simp [List.insertIdx_succ_cons, ih]

/-- Helper for C10: the backfill loop, run over the mapping records with a
jobs list holding exactly the jobs of the present mappings (through any
assignment `F`), restores index alignment: the result is the mapping list
itself with each present mapping replaced by its job. -/
lemma backfill_none_loop_spec
    (F : TrainingJobExplorationMappingModel → ClassifierTrainingJob) :
    ∀ (mm : List (Option TrainingJobExplorationMappingModel))
      (pfx : List (Option ClassifierTrainingJob)),
    backfill_none_loop mm pfx.length
      (pfx ++ (mm.filterMap (fun x => x.map F)).map some) =
      pfx ++ mm.map (fun x => x.map F) := by
  intro mm
  induction mm with
  | nil => intro pfx; simp [backfill_none_loop]
  | cons hd rest ih =>
    intro pfx
    cases hd with
    | none =>
      have hcore : ((none : Option TrainingJobExplorationMappingModel)
          :: rest).filterMap (fun x => x.map F) =
          rest.filterMap (fun x => x.map F) := by simp
      rw [hcore]
      simp only [backfill_none_loop]
      rw [insertIdx_append_self]
      have h2 := ih (pfx ++ [none])
      simp only [List.length_append, List.length_cons, List.length_nil,
        List.append_assoc, List.cons_append, List.nil_append] at h2 ⊢
      simpa using h2
    | some m =>
      have hcore : ((some m : Option TrainingJobExplorationMappingModel)
          :: rest).filterMap (fun x => x.map F) =
          F m :: rest.filterMap (fun x => x.map F) := by simp
      rw [hcore]
      simp only [backfill_none_loop]
      have h2 := ih (pfx ++ [some (F m)])
      simp only [List.length_append, List.length_cons, List.length_nil,
        List.append_assoc, List.cons_append, List.nil_append] at h2 ⊢
      simpa using h2

/-- Helper for C10: when every fetched record is present, the
domain-object loop succeeds and converts each record. -/
lemma jobs_from_models_of_isSome :
    ∀ (ms : List (Option ClassifierTrainingJobModel)),
    (∀ x ∈ ms, x.isSome) →
    jobs_from_models ms = .ok (ms.map (fun x =>
      get_classifier_training_job_from_model (x.getD default))) := by
  intro ms
  induction ms with
  | nil => intro _; rfl
  | cons a rest ih =>
    intro h
    cases a with
    | none => exact absurd (h none (List.mem_cons_self none rest)) (by simp)
    | some m =>
      simp only [jobs_from_models,
        ih (fun q hq => h q (List.mem_cons_of_mem (some m) hq))]
      simp

/-- Helper: if the domain-object loop succeeded, every fetched record was
present. -/
lemma jobs_from_models_ok_isSome :
    ∀ (ms : List (Option ClassifierTrainingJobModel))
      (js : List ClassifierTrainingJob),
    jobs_from_models ms = .ok js → ∀ x ∈ ms, x.isSome := by
  intro ms
  induction ms with
  | nil => intro js _ x hx; cases hx
  | cons a rest ih =>
    intro js h x hx
    cases a with
    | none => simp [jobs_from_models] at h
    | some m =>
      rcases List.mem_cons.mp hx with rfl | hx'
      · rfl
      · cases hr : jobs_from_models rest with
        | error e => rw [jobs_from_models, hr] at h; cases h
        | ok js' => exact ih js' hr x hx'

/-- Helper for C10: `get_classifier_training_jobs` under the
all-referenced-jobs-present condition, stated on the fetched records. -/
lemma get_classifier_training_jobs_of_isSome (jstore : JobStore)
    (mstore : MappingStore) (exp_id : String) (exp_version : Nat)
    (state_names : List String)
    (hall : ∀ x ∈ ((mstore.get_models exp_id exp_version
        state_names).filterMap (fun mapping_model =>
          mapping_model.map (fun m => m.job_id))).map jstore.get,
      x.isSome) :
    get_classifier_training_jobs jstore mstore exp_id exp_version
      state_names = .ok
      ((mstore.get_models exp_id exp_version state_names).map
        (fun x => x.map (fun m => get_classifier_training_job_from_model
          ((jstore.get m.job_id).getD default)))) := by
  unfold get_classifier_training_jobs
  simp only [JobStore.get_multi]
  rw [jobs_from_models_of_isSome _ hall]
  have hcore : (((mstore.get_models exp_id exp_version
        state_names).filterMap (fun mapping_model =>
          mapping_model.map (fun m => m.job_id))).map jstore.get).map
        (fun x => get_classifier_training_job_from_model (x.getD default)) =
      (mstore.get_models exp_id exp_version state_names).filterMap
        (fun x => x.map (fun m => get_classifier_training_job_from_model
          ((jstore.get m.job_id).getD default))) := by
    rw [List.map_map, List.map_filterMap]
    congr 1
    funext x
    cases x <;> simp
  rw [hcore]
  have h2 := backfill_none_loop_spec
    (fun m => get_classifier_training_job_from_model
      ((jstore.get m.job_id).getD default))
    (mstore.get_models exp_id exp_version state_names) []
  simpa using h2

/-- Helper: a successful `get_classifier_training_jobs` result is exactly
the mapping list with each present mapping replaced by its job. -/
lemma get_classifier_training_jobs_ok_eq (jstore : JobStore)
    (mstore : MappingStore) (exp_id : String) (exp_version : Nat)
    (state_names : List String)
    (r : List (Option ClassifierTrainingJob))
    (h : get_classifier_training_jobs jstore mstore exp_id exp_version
      state_names = .ok r) :
    r = (mstore.get_models exp_id exp_version state_names).map
      (fun x => x.map (fun m => get_classifier_training_job_from_model
        ((jstore.get m.job_id).getD default))) := by
  have hall : ∀ x ∈ ((mstore.get_models exp_id exp_version
      state_names).filterMap (fun mapping_model =>
        mapping_model.map (fun m => m.job_id))).map jstore.get,
      x.isSome := by
    have h' := h
    unfold get_classifier_training_jobs at h'
    simp only [JobStore.get_multi] at h'
    cases hjm : jobs_from_models (((mstore.get_models exp_id exp_version
        state_names).filterMap (fun mapping_model =>
          mapping_model.map (fun m => m.job_id))).map jstore.get) with
    | error e => rw [hjm] at h'; cases h'
    | ok js => exact jobs_from_models_ok_isSome _ js hjm
  have h3 := (get_classifier_training_jobs_of_isSome jstore mstore exp_id
    exp_version state_names hall).symm.trans h
  exact (Except.ok.inj h3).symm

/-- C10: when every job id referenced by an existing mapping names an
existing job, `get_classifier_training_jobs` succeeds with a list of the
same length as the state-name list whose i-th element is `None` exactly
when no mapping exists for the i-th state name, and otherwise is the job
that state's mapping points to: the `None` backfill preserves index
alignment. -/
theorem get_classifier_training_jobs_index_alignment (jstore : JobStore)
    (mstore : MappingStore) (exp_id : String) (exp_version : Nat)
    (state_names : List String)
    (hjobs : ∀ mm ∈ mstore.get_models exp_id exp_version state_names,
      ∀ m, mm = some m → (jstore.get m.job_id).isSome) :
    ∃ result,
      get_classifier_training_jobs jstore mstore exp_id exp_version
        state_names = .ok result ∧
      result.length = state_names.length ∧
      ∀ i : Nat, i < state_names.length →
        (result[i]? = some none ↔
          (mstore.get_models exp_id exp_version state_names)[i]? =
            some none) ∧
        (∀ m jm,
          (mstore.get_models exp_id exp_version state_names)[i]? =
            some (some m) →
          jstore.get m.job_id = some jm →
          result[i]? =
            some (some (get_classifier_training_job_from_model jm))) := by
  have hall : ∀ x ∈ ((mstore.get_models exp_id exp_version
      state_names).filterMap (fun mapping_model =>
        mapping_model.map (fun m => m.job_id))).map jstore.get,
      x.isSome := by
    intro x hx
    obtain ⟨id, hid, hxeq⟩ := List.mem_map.mp hx
    obtain ⟨x0, hx0, hx1⟩ := List.mem_filterMap.mp hid
    cases x0 with
    | none => cases hx1
    | some m =>
      have hm : m.job_id = id := by simpa using hx1
      rw [← hxeq, ← hm]
      exact hjobs (some m) hx0 m rfl
  refine ⟨_, get_classifier_training_jobs_of_isSome jstore mstore exp_id
    exp_version state_names hall, ?_, ?_⟩
  · simp [MappingStore.get_models]
  · intro i hi
    constructor
    · rw [List.getElem?_map]
      cases hmm : (mstore.get_models exp_id exp_version state_names)[i]? with
      | none => simp
      | some x => cases x <;> simp
    · intro m jm h1 h2
      rw [List.getElem?_map, h1]
      simp [h2]

/-- A mapping record pointing the version-1 "About" state at the NEW
job. -/
def about_mapping : TrainingJobExplorationMappingModel :=
  ⟨"exp", 1, "About", "job_n"⟩

/-- Witness for C10: one mapping for "About" (pointing at the stored NEW
job) and none for "Home": the result is `[none, some job]`, aligned with
the input state names. -/
theorem get_classifier_training_jobs_index_alignment_witness :
    ∃ result,
      get_classifier_training_jobs ⟨[due_new_job], 0⟩ ⟨[about_mapping]⟩
        "exp" 1 ["Home", "About"] = .ok result ∧
      result.length = 2 ∧
      ∀ i : Nat, i < 2 →
        (result[i]? = some none ↔
          ((⟨[about_mapping]⟩ : MappingStore).get_models "exp" 1
            ["Home", "About"])[i]? = some none) ∧
        (∀ m jm,
          ((⟨[about_mapping]⟩ : MappingStore).get_models "exp" 1
            ["Home", "About"])[i]? = some (some m) →
          (⟨[due_new_job], 0⟩ : JobStore).get m.job_id = some jm →
          result[i]? =
            some (some (get_classifier_training_job_from_model jm))) :=
  get_classifier_training_jobs_index_alignment ⟨[due_new_job], 0⟩
    ⟨[about_mapping]⟩ "exp" 1 ["Home", "About"]
    (by
      intro mm hmm m hm
      have hval : MappingStore.get_models ⟨[about_mapping]⟩ "exp" 1
          ["Home", "About"] = [none, some about_mapping] := rfl
      rw [hval] at hmm
      rcases List.mem_cons.mp hmm with rfl | h
      · cases hm
      · rcases List.mem_singleton.mp h with rfl
        obtain rfl : about_mapping = m := by injection hm
        rfl)

/-- Helper for C6/C7: with a positive target version, carry-over mapping
building succeeds, producing one mapping per state whose job was found and
silently skipping the states whose job is missing. -/
lemma build_carry_over_mappings_spec (exp_id : String) (v : Nat)
    (hv : 1 ≤ v) :
    ∀ (l : List (String × Option ClassifierTrainingJob)),
    build_carry_over_mappings exp_id v l = .ok (l.filterMap (fun p =>
      p.2.map (fun j =>
        (⟨exp_id, v, p.1, j.job_id⟩ : TrainingJobExplorationMapping)))) := by
  intro l
  induction l with
  | nil => rfl
  | cons p rest ih =>
    rcases p with ⟨sn, jo⟩
    cases jo with
    | none => simpa [build_carry_over_mappings] using ih
    | some j =>
      simp only [build_carry_over_mappings,
        TrainingJobExplorationMapping.validate]
      rw [if_neg (Nat.not_lt.mpr hv), ih]
      simp

/-- Helper for C6/C7: the success-path characterization of
`handle_non_retrainable_states` — no raise on missing jobs, one new
mapping per state whose old-version job was found, job store passed
through untouched. -/
lemma handle_non_retrainable_states_spec (exploration : Exploration)
    (state_names : List String)
    (new_to_old_state_names : List (String × String)) (jstore : JobStore)
    (mstore : MappingStore) (olds : List String)
    (jobsOpt : List (Option ClassifierTrainingJob))
    (hver : 2 ≤ exploration.version)
    (hres : resolve_old_state_names new_to_old_state_names state_names =
      .ok olds)
    (hget : get_classifier_training_jobs jstore mstore exploration.id
      (exploration.version - 1) olds = .ok jobsOpt) :
    handle_non_retrainable_states exploration state_names
      new_to_old_state_names jstore mstore =
      (.ok (), jstore, mstore.create_multi
        ((state_names.zip jobsOpt).filterMap (fun p =>
          p.2.map (fun j => ⟨exploration.id, exploration.version, p.1,
            j.job_id⟩)))) := by
  have hguard : ¬ (exploration.version - 1 ≤ 0) := by omega
  simp only [handle_non_retrainable_states]
  rw [if_neg hguard]
  simp only [hres, hget,
    build_carry_over_mappings_spec exploration.id exploration.version
      (by omega) (state_names.zip jobsOpt)]

/-- C7: when `handle_non_retrainable_states` finds no job for some of the
old state names, it does not raise for those states: the call succeeds,
and the persisted new mappings are exactly those of the states whose
old-version job was found (the rest are skipped). -/
theorem handle_non_retrainable_states_skips_missing_jobs
    (exploration : Exploration) (state_names : List String)
    (new_to_old_state_names : List (String × String)) (jstore : JobStore)
    (mstore : MappingStore) (olds : List String)
    (jobsOpt : List (Option ClassifierTrainingJob))
    (hver : 2 ≤ exploration.version)
    (hres : resolve_old_state_names new_to_old_state_names state_names =
      .ok olds)
    (hget : get_classifier_training_jobs jstore mstore exploration.id
      (exploration.version - 1) olds = .ok jobsOpt) :
    handle_non_retrainable_states exploration state_names
      new_to_old_state_names jstore mstore =
      (.ok (), jstore, mstore.create_multi
        ((state_names.zip jobsOpt).filterMap (fun p =>
          p.2.map (fun j => ⟨exploration.id, exploration.version, p.1,
            j.job_id⟩)))) :=
  handle_non_retrainable_states_spec exploration state_names
    new_to_old_state_names jstore mstore olds jobsOpt hver hres hget

/-- Witness for C7: two states; "Welcome" renames to old "Home", which has
a job, while "Other" renames to "Missing", which has none.  The call
succeeds, persists one mapping for "Welcome", and skips "Other". -/
theorem handle_non_retrainable_states_skips_missing_jobs_witness :
    handle_non_retrainable_states ⟨"exp", 2, []⟩ ["Welcome", "Other"]
      [("Welcome", "Home"), ("Other", "Missing")] ⟨[due_new_job], 0⟩
      ⟨[⟨"exp", 1, "Home", "job_n"⟩]⟩ =
      (.ok (), (⟨[due_new_job], 0⟩ : JobStore),
        (⟨[⟨"exp", 1, "Home", "job_n"⟩, ⟨"exp", 2, "Welcome", "job_n"⟩]⟩ :
          MappingStore)) :=
  handle_non_retrainable_states_skips_missing_jobs ⟨"exp", 2, []⟩
    ["Welcome", "Other"] [("Welcome", "Home"), ("Other", "Missing")]
    ⟨[due_new_job], 0⟩ ⟨[⟨"exp", 1, "Home", "job_n"⟩]⟩ ["Home", "Missing"]
    [some (get_classifier_training_job_from_model due_new_job), none]
    (by decide) rfl rfl

/-- Helper for C6: no state name of the list equal to `sn` means no
carry-over mapping with state name `sn`. -/
lemma carry_over_filter_nil (e : String) (v : Nat) (sn : String) :
    ∀ (l : List (String × Option ClassifierTrainingJob)),
    sn ∉ l.map Prod.fst →
    ((l.filterMap (fun p => p.2.map (fun t =>
        (⟨e, v, p.1, t.job_id⟩ : TrainingJobExplorationMapping)))).map
      TrainingJobExplorationMapping.to_model).filter
      (fun m => m.state_name == sn) = [] := by
  intro l
  induction l with
  | nil => intro _; rfl
  | cons p rest ih =>
    intro h
    rcases p with ⟨a, jo⟩
    have ha : a ≠ sn := by
      intro heq
      exact h (by simp [heq])
    have hrest : sn ∉ rest.map Prod.fst := fun hmem => h (by simp [hmem])
    cases jo with
    | none => simpa using ih hrest
    | some t =>
      simpa [TrainingJobExplorationMapping.to_model,
        beq_eq_false_iff_ne.mpr ha] using ih hrest

/-- Helper for C6: among the carry-over mappings of a list with pairwise
distinct state names, exactly one carries the name of a state whose job
was found — the mapping pointing at that job. -/
lemma carry_over_filter_single (e : String) (v : Nat) :
    ∀ (l : List (String × Option ClassifierTrainingJob)),
    (l.map Prod.fst).Nodup →
    ∀ (sn : String) (j : ClassifierTrainingJob), (sn, some j) ∈ l →
    ((l.filterMap (fun p => p.2.map (fun t =>
        (⟨e, v, p.1, t.job_id⟩ : TrainingJobExplorationMapping)))).map
      TrainingJobExplorationMapping.to_model).filter
      (fun m => m.state_name == sn) =
      [⟨e, v, sn, j.job_id⟩] := by
  intro l
  induction l with
  | nil => intro _ sn j h; cases h
  | cons p rest ih =>
    intro hnodup sn j hmem
    rcases p with ⟨a, jo⟩
    rw [List.map_cons, List.nodup_cons] at hnodup
    obtain ⟨hnotin, hnd⟩ := hnodup
    rcases List.mem_cons.mp hmem with h | h
    · obtain ⟨h1, h2⟩ := Prod.mk.injEq .. ▸ h
      subst h1
      subst h2
      simpa [TrainingJobExplorationMapping.to_model] using
        carry_over_filter_nil e v sn rest hnotin
    · have hsnmem : sn ∈ rest.map Prod.fst :=
        List.mem_map.mpr ⟨(sn, some j), h, rfl⟩
      have ha : a ≠ sn := by
        intro heq
        exact hnotin (heq ▸ hsnmem)
      cases jo with
      | none => simpa using ih hnd sn j h
      | some t =>
        simpa [TrainingJobExplorationMapping.to_model,
          beq_eq_false_iff_ne.mpr ha] using ih hnd sn j h

/-- Helper for C6: old-name resolution preserves the list length. -/
lemma resolve_old_state_names_length (n2o : List (String × String)) :
    ∀ (names olds : List String),
    resolve_old_state_names n2o names = .ok olds →
    olds.length = names.length := by
  intro names
  induction names with
  | nil =>
    intro olds h
    obtain rfl := Except.ok.inj h
    rfl
  | cons a rest ih =>
    intro olds h
    simp only [resolve_old_state_names] at h
    cases hl : n2o.lookup a with
    | none => rw [hl] at h; cases h
    | some o =>
      rw [hl] at h
      cases hr : resolve_old_state_names n2o rest with
      | error e => rw [hr] at h; cases h
      | ok os =>
        rw [hr] at h
        obtain rfl := Except.ok.inj h
        simp [ih os hr]

/-- C6: for every new state name with pairwise-distinct names whose
corresponding old state name has a job at version minus one,
`handle_non_retrainable_states` creates exactly one new mapping, from
(exploration id, new version, new state name) to that existing job's
job id, and creates no new training job (the job store is returned
untouched). -/
theorem handle_non_retrainable_states_carry_over_mapping
    (exploration : Exploration) (state_names : List String)
    (new_to_old_state_names : List (String × String)) (jstore : JobStore)
    (mstore : MappingStore) (olds : List String)
    (jobsOpt : List (Option ClassifierTrainingJob))
    (hver : 2 ≤ exploration.version)
    (hres : resolve_old_state_names new_to_old_state_names state_names =
      .ok olds)
    (hget : get_classifier_training_jobs jstore mstore exploration.id
      (exploration.version - 1) olds = .ok jobsOpt)
    (hnodup : state_names.Nodup) (i : Nat) (sn : String)
    (j : ClassifierTrainingJob)
    (hsn : state_names[i]? = some sn)
    (hj : jobsOpt[i]? = some (some j)) :
    ∃ mstore',
      handle_non_retrainable_states exploration state_names
        new_to_old_state_names jstore mstore = (.ok (), jstore, mstore') ∧
      (mstore'.mappings.drop mstore.mappings.length).filter
        (fun m => m.state_name == sn) =
        [⟨exploration.id, exploration.version, sn, j.job_id⟩] := by
  have hleno : olds.length = state_names.length :=
    resolve_old_state_names_length new_to_old_state_names state_names olds
      hres
  have hlenj : jobsOpt.length = state_names.length := by
    have heq := get_classifier_training_jobs_ok_eq jstore mstore
      exploration.id (exploration.version - 1) olds jobsOpt hget
    rw [heq]
    simp [MappingStore.get_models, hleno]
  refine ⟨_, handle_non_retrainable_states_spec exploration state_names
    new_to_old_state_names jstore mstore olds jobsOpt hver hres hget, ?_⟩
  simp only [MappingStore.create_multi]
  rw [List.drop_left]
  apply carry_over_filter_single
  · rw [List.map_fst_zip state_names jobsOpt (by omega)]
    exact hnodup
  · exact List.getElem?_mem (List.getElem?_zip_eq_some.mpr ⟨hsn, hj⟩)

/-- Witness for C6: the renamed state "Welcome" (old name "Home", which
has the job) yields exactly one new mapping, to "job_n"; the job store
comes back unchanged. -/
theorem handle_non_retrainable_states_carry_over_mapping_witness :
    ∃ mstore',
      handle_non_retrainable_states ⟨"exp", 2, []⟩ ["Welcome", "Other"]
        [("Welcome", "Home"), ("Other", "Missing")] ⟨[due_new_job], 0⟩
        ⟨[⟨"exp", 1, "Home", "job_n"⟩]⟩ =
        (.ok (), (⟨[due_new_job], 0⟩ : JobStore), mstore') ∧
      (mstore'.mappings.drop 1).filter
        (fun m => m.state_name == "Welcome") =
        [⟨"exp", 2, "Welcome", "job_n"⟩] :=
  handle_non_retrainable_states_carry_over_mapping ⟨"exp", 2, []⟩
    ["Welcome", "Other"] [("Welcome", "Home"), ("Other", "Missing")]
    ⟨[due_new_job], 0⟩ ⟨[⟨"exp", 1, "Home", "job_n"⟩]⟩ ["Home", "Missing"]
    [some (get_classifier_training_job_from_model due_new_job), none]
    (by decide) rfl rfl (by decide) 0 "Welcome"
    (get_classifier_training_job_from_model due_new_job) rfl rfl

end Oppia
